import Mathlib

/-!
Verification of the CareSync retrieval-augmented QA core.

Shallow embedding of the Python sources:
- `app/vector_store/base.py`   (FAISS / Chroma backends)
- `app/services/vector_store_service.py`
- `app/services/chat_service.py`
- `app/services/llm_service.py`
- `app/services/document_service.py`

Machine floats of the source are modelled as rationals; Python dicts used
as chunk metadata are modelled as association lists from keys to string
values; fallible Python code is modelled with `Except`; persistence
(`save_local` / `persist`) is modelled by an explicit on-disk component of
the state plus an effect trace.
-/

namespace CareSync

/-- A langchain `Document`: page content plus a metadata dict.  Metadata
values are modelled as strings (`doc.metadata.get(key)` becomes an
association-list lookup). -/
structure Doc where
  page_content : String
  metadata : List (String × String)
deriving DecidableEq

/-- `m.get(k)` on a Python dict modelled as an association list. -/
def dictGet (m : List (String × String)) (k : String) : Option String :=
  (m.find? (fun p => p.1 == k)).map (fun p => p.2)

/-- An entry held by a vector index: the document together with the
embedding vector computed for it at insertion time. -/
structure IndexEntry where
  doc : Doc
  vector : List ℚ
deriving DecidableEq

/-- Embeds the score conversion on line 77 (and 124) of
`app/vector_store/base.py`:
`float(1.0 - score) if score <= 1.0 else float((1.0 / score) if score > 0 else 0)`. -/
def relevanceScore (score : ℚ) : ℚ :=
  if score ≤ 1 then 1 - score
  else if 0 < score then 1 / score
  else 0

/-- Squared L2 distance between two vectors, the raw score FAISS returns
from `similarity_search_with_score` (ascending: smaller is closer). -/
def sqDist (u v : List ℚ) : ℚ :=
  (List.zipWith (fun a b => (a - b) * (a - b)) u v).sum

/-- Insert a scored document into a list sorted by ascending score,
keeping earlier-inserted entries first among equal scores. -/
def insertByScore (p : Doc × ℚ) : List (Doc × ℚ) → List (Doc × ℚ)
  | [] => [p]
  | q :: qs => if p.2 ≤ q.2 then p :: q :: qs else q :: insertByScore p qs

/-- Stable sort by ascending score (insertion sort). -/
def sortByScore : List (Doc × ℚ) → List (Doc × ℚ)
  | [] => []
  | p :: ps => insertByScore p (sortByScore ps)

/-- `store.similarity_search_with_score(query, k)`: the `k` entries of the
index nearest to the query vector, with their raw distances, ascending. -/
def similaritySearchWithScore (entries : List IndexEntry) (qv : List ℚ) (k : ℕ) :
    List (Doc × ℚ) :=
  (sortByScore (entries.map (fun e => (e.doc, sqDist qv e.vector)))).take k

/-- Models Python `not s.strip()`: true iff every character is whitespace. -/
def isBlank (s : String) : Bool :=
  s.toList.all Char.isWhitespace

/-- A search result as formatted by
`VectorStoreService.search_similar` (`app/services/vector_store_service.py`,
lines 96-103): content, metadata and the raw score. -/
structure SearchResult where
  content : String
  metadata : List (String × String)
  score : ℚ
deriving DecidableEq

/-- Embeds `VectorStoreService.search_similar`
(`app/services/vector_store_service.py`, lines 84-108).  The query is
embedded inside `similarity_search_with_score`; `embedResult` is the
outcome of that upstream call (`.error` when the embedding service fails,
in which case the surrounding `except` block prints and returns `[]`).
Results whose metadata `source` equals `"initialization"` are skipped. -/
def searchSimilarSvc (embedResult : Except String (List ℚ))
    (entries : List IndexEntry) (query : String) (k : ℕ) : List SearchResult :=
  if isBlank query then []
  else
    match embedResult with
    | .error _ => []
    | .ok qv =>
        ((similaritySearchWithScore entries qv k).filter
            (fun r => !(dictGet r.1.metadata "source" == some "initialization"))).map
          (fun r => ⟨r.1.page_content, r.1.metadata, r.2⟩)

/-- The sentinel/initialization entry written by
`VectorStoreService._initialize_vector_store` (lines 52-58), with a given
embedding vector. -/
def sentinelEntryWith (v : List ℚ) : IndexEntry :=
  ⟨⟨"CareSync AI initialization document. This is a placeholder.",
    [("source", "initialization")]⟩, v⟩

/-- A concrete sentinel entry used for concrete index states. -/
def sentinelEntry : IndexEntry := sentinelEntryWith [0]

/-- A concrete eligible (non-sentinel) entry. -/
def eligibleEntry : IndexEntry :=
  ⟨⟨"Diabetes symptoms include increased thirst.",
    [("source", "upload"), ("filename", "a.pdf")]⟩, [10]⟩

/-- A concrete index state holding the sentinel and one eligible entry. -/
def c10State : List IndexEntry := [sentinelEntry, eligibleEntry]

/-- The search result produced for `eligibleEntry` at distance 0. -/
def eligibleResult : SearchResult :=
  ⟨"Diabetes symptoms include increased thirst.",
    [("source", "upload"), ("filename", "a.pdf")], 0⟩

/-! ## Backend stores (`app/vector_store/base.py`) -/

/-- A persistence operation performed by a backend. -/
inductive StoreEffect where
  | saveLocal
  | persist
deriving DecidableEq

/-- State of a `FAISSVectorStore`: the in-memory index and the entries
currently persisted on disk at `store_path`. -/
structure FAISSStoreState where
  entries : List IndexEntry
  disk : List IndexEntry
deriving DecidableEq

/-- State of a `ChromaVectorStore`, same shape. -/
structure ChromaStoreState where
  entries : List IndexEntry
  disk : List IndexEntry
deriving DecidableEq

/-- Embeds `FAISSVectorStore.add_documents`
(`app/vector_store/base.py`, lines 57-64): empty input returns 0 at once;
otherwise the documents are embedded and added, the whole index is written
to disk (`save_local`), and the count is returned.  The result also
carries the trace of persistence operations performed. -/
def faissAddDocuments (embed : String → List ℚ) (st : FAISSStoreState)
    (documents : List Doc) : ℕ × FAISSStoreState × List StoreEffect :=
  if documents.isEmpty then (0, st, [])
  else
    let added := st.entries ++ documents.map (fun d => ⟨d, embed d.page_content⟩)
    (documents.length, ⟨added, added⟩, [.saveLocal])

/-- Embeds `ChromaVectorStore.add_documents`
(`app/vector_store/base.py`, lines 104-111): same shape, persisting via
`persist`. -/
def chromaAddDocuments (embed : String → List ℚ) (st : ChromaStoreState)
    (documents : List Doc) : ℕ × ChromaStoreState × List StoreEffect :=
  if documents.isEmpty then (0, st, [])
  else
    let added := st.entries ++ documents.map (fun d => ⟨d, embed d.page_content⟩)
    (documents.length, ⟨added, added⟩, [.persist])

/-- Embeds `FAISSVectorStore.delete` (`app/vector_store/base.py`,
lines 83-87): the body is a single `return False` — no exception is
raised and the store is untouched.  The `Except` layer records that a
Python method may in principle raise; this one always returns normally. -/
def faissDelete (st : FAISSStoreState) (documentIds : List String) :
    Except String Bool × FAISSStoreState :=
  (.ok false, st)

/-! ## `VectorStoreService` initialization and insertion
(`app/services/vector_store_service.py`) -/

/-- A persisted FAISS index directory: the dimension baked into the
serialized index plus its entries. -/
structure DiskIndex where
  dimension : ℕ
  entries : List IndexEntry
deriving DecidableEq

/-- Embeds `VectorStoreService._initialize_vector_store`
(`app/services/vector_store_service.py`, lines 34-63).  `requestedDim` is
the dimensionality of the configured embeddings; `loadOk` is whether
deserialization of an existing index succeeds.  If an index file exists
and loads, it is used as-is — the code performs no comparison between the
stored dimension and the requested one.  If no index exists (or loading
throws), a fresh store containing only the sentinel document is created
and saved over the path. -/
def initializeVectorStore (requestedDim : ℕ) (sentinelVec : List ℚ)
    (persisted : Option DiskIndex) (loadOk : Bool) :
    Except String (List IndexEntry × ℕ) × Option DiskIndex :=
  match persisted with
  | some d =>
      if loadOk then (.ok (d.entries, d.dimension), some d)
      else
        (.ok ([sentinelEntryWith sentinelVec], requestedDim),
          some ⟨requestedDim, [sentinelEntryWith sentinelVec]⟩)
  | none =>
      (.ok ([sentinelEntryWith sentinelVec], requestedDim),
        some ⟨requestedDim, [sentinelEntryWith sentinelVec]⟩)

/-- A persisted index of stored dimension 1536. -/
def disk1536 : DiskIndex := ⟨1536, [sentinelEntryWith (List.replicate 1536 0)]⟩

/-- Embeds `VectorStoreService.add_document`
(`app/services/vector_store_service.py`, lines 65-82).  Blank content
returns `False` without touching the store.  `embedResult` is the outcome
of the upstream embedding call made inside `add_texts`; on failure the
surrounding `except` block prints the error and returns `False`.  On
success the text is added and the whole index saved to disk. -/
def addDocumentSvc (embedResult : Except String (List ℚ))
    (entries disk : List IndexEntry) (content : String)
    (metadata : List (String × String)) :
    Bool × List IndexEntry × List IndexEntry :=
  if isBlank content then (false, entries, disk)
  else
    match embedResult with
    | .error _ => (false, entries, disk)
    | .ok v =>
        let added := entries ++ [⟨⟨content, metadata⟩, v⟩]
        (true, added, added)

/-! ## Chat pipeline (`app/services/chat_service.py`, `app/services/llm_service.py`) -/

/-- The attributes defined on `VectorStoreService`
(`app/services/vector_store_service.py`): instance fields set in
`__init__` and the methods of the class body.  Python attribute lookup on
a `VectorStoreService` object succeeds exactly for these names. -/
def vectorStoreServiceAttrs : List String :=
  ["vector_store", "embeddings", "vector_store_path", "document_store_path",
   "_ensure_directories", "_initialize_vector_store", "add_document",
   "search_similar"]

/-- Error raised out of `ChatService.process_question`: the `except`
block wraps the underlying exception — here a Python `AttributeError`
naming the object type and the missing attribute — into a new
`Exception` prefixed with the text `Error processing question`. -/
inductive ChatError where
  | attributeErrorWrapped (objName attrName : String)
deriving DecidableEq

/-- Attribute lookup for the retrieval call
`self.vector_store_service.<name>(question, top_k)` made by
`ChatService.process_question` (`app/services/chat_service.py`, line 25).
Only `search_similar` is a search-shaped method of `VectorStoreService`;
looking up any name outside `vectorStoreServiceAttrs` raises
`AttributeError`. -/
def vssSearchCall (name : String) (embedResult : Except String (List ℚ))
    (entries : List IndexEntry) (query : String) (k : ℕ) :
    Except ChatError (List SearchResult) :=
  if name == "search_similar" then .ok (searchSimilarSvc embedResult entries query k)
  else if vectorStoreServiceAttrs.contains name then
    .error (.attributeErrorWrapped "VectorStoreService" name)
  else .error (.attributeErrorWrapped "VectorStoreService" name)

/-- Response dict of `LLMService.generate_response`. -/
structure LLMResponse where
  answer : String
  confidence : ℚ
  conversation_id : Option String
deriving DecidableEq

/-- Embeds `LLMService.generate_response`
(`app/services/llm_service.py`, lines 43-91).  The model invocation is
the oracle `llm`; the confidence is the fixed placeholder
`0.8 if context else 0.5` (Python truthiness: `None` and the empty list
are both falsy). -/
def generateResponse (llm : String → Option (List SearchResult) → String)
    (question : String) (context : Option (List SearchResult))
    (conversationId : Option String) : LLMResponse :=
  let hasContext := match context with
    | some l => !l.isEmpty
    | none => false
  { answer := llm question context,
    confidence := if hasContext then 8/10 else 5/10,
    conversation_id := conversationId }

/-- The response envelope assembled by `ChatService.process_question`
(`app/services/chat_service.py`, lines 42-50). -/
structure ChatResult where
  answer : String
  sources : Option (List SearchResult)
  confidence : Option ℚ
  conversation_id : String
  has_context : Bool
deriving DecidableEq

/-- Embeds `ChatService.process_question`
(`app/services/chat_service.py`, lines 17-53).  `freshId` is the UUID
minted when no conversation id is supplied.  Retrieval is invoked as
`self.vector_store_service.search(question, top_k=3)` — the attribute
name `search` — on the `VectorStoreService` object bound in `__init__`;
the resulting `AttributeError` is caught by the `except` block and
re-raised wrapped.  Had the lookup succeeded, the sources would be fed to
`generate_response` (with context when non-empty) and the envelope
assembled. -/
def processQuestion (llm : String → Option (List SearchResult) → String)
    (embedResult : Except String (List ℚ)) (entries : List IndexEntry)
    (question : String) (conversationId : Option String) (freshId : String) :
    Except ChatError ChatResult :=
  let cid := match conversationId with
    | none => freshId
    | some c => c
  match vssSearchCall "search" embedResult entries question 3 with
  | .error e => .error e
  | .ok sources =>
      let resp := generateResponse llm question
        (if sources.isEmpty then none else some sources) (some cid)
      .ok { answer := resp.answer,
            sources := if sources.isEmpty then none else some sources,
            confidence := some resp.confidence,
            conversation_id := cid,
            has_context := !sources.isEmpty }

/-! ## Chunker

`DocumentService._split_text` (`app/services/document_service.py`,
lines 119-145) delegates the split itself to langchain's
`RecursiveCharacterTextSplitter(chunk_size=1000, chunk_overlap=200)`,
which is an external library, not part of this repository's sources. -/

/-- Modelled from the spec: the Chunker algorithm of §4.2 — the splitter
implementation is missing from the sources (only its invocation in
`DocumentService._split_text` is present).  A greedy sliding window over
the text: each chunk is the next `chunkSize` characters and consecutive
chunks share `overlap` characters of context, so the window advances by
`chunkSize - overlap`.  Empty input yields an empty sequence; the
spec rejects `overlap ≥ chunk_size` (`ConfigError`), embedded as the
empty sequence on that unused branch. -/
def splitText (chunkSize overlap : ℕ) (text : List Char) : List (List Char) :=
  if text.isEmpty then []
  else if text.length ≤ chunkSize then [text]
  else if h : overlap < chunkSize then
    text.take chunkSize :: splitText chunkSize overlap (text.drop (chunkSize - overlap))
  else []
termination_by text.length
decreasing_by
  simp only [List.length_drop]
  omega

/-- Concatenation of a list of chunks. -/
def concatAll : List (List Char) → List Char
  | [] => []
  | c :: cs => c ++ concatAll cs

/-- Concatenation of the non-overlapping portions of consecutive chunks:
the first chunk in full, every later chunk with its leading `overlap`
characters (shared with its predecessor) removed. -/
def joinChunks (overlap : ℕ) : List (List Char) → List Char
  | [] => []
  | c :: rest => c ++ concatAll (rest.map (fun x => x.drop overlap))

/-! ## Document processing (`app/services/document_service.py`) -/

/-- Index of the last `.` in a character list, if any. -/
def lastDotIdx (cs : List Char) : Option ℕ :=
  match cs.reverse.findIdx? (fun c => c == '.') with
  | none => none
  | some j => some (cs.length - 1 - j)

/-- Models Python `os.path.splitext(filename)[1]` on a bare filename (no
directory separators, as with uploaded filenames): the suffix starting at
the last dot, except that a basename consisting of leading dots only has
no extension. -/
def splitextExt (s : String) : String :=
  let cs := s.toList
  match lastDotIdx cs with
  | none => ""
  | some i => if (cs.take i).all (fun c => c == '.') then "" else String.mk (cs.drop i)

/-- Models Python `str.lower()` (ASCII case, which covers file
extensions). -/
def lowerString (s : String) : String :=
  String.mk (s.toList.map Char.toLower)

/-- Exception escaping `DocumentService.process_document`: the `except`
block re-raises every failure wrapped in
`Exception(f"Error processing document: {e}")`. -/
inductive PyErr where
  | exn (msg : String)
deriving DecidableEq

/-- The success dict returned by `DocumentService.process_document`. -/
structure ProcessResult where
  document_id : String
  filename : String
  document_type : Option String
  num_chunks : ℕ
deriving DecidableEq

/-- `_split_text` (`app/services/document_service.py`, lines 119-145):
chunk the text (chunk_size 1000, overlap 200) and attach metadata to each
chunk, with `chunk_id` its sequential index.  Non-string metadata values
are rendered as strings in the dict model. -/
def mkChunkDocs (filename docId : String) (documentType : Option String)
    (text : String) : List Doc :=
  (splitText 1000 200 text.toList).mapIdx (fun i c =>
    ⟨String.mk c,
     [("filename", filename), ("document_id", docId),
      ("chunk_id", toString i),
      ("document_type", match documentType with
        | some t => t
        | none => "None")]⟩)

/-- Embeds `DocumentService.process_document`
(`app/services/document_service.py`, lines 23-77) over an abstract
injected vector-store collaborator (`σ`, `addDocs`) and extraction
oracles for the two supported formats.  The extension is taken with
`os.path.splitext(...)[1].lower()`; `.pdf` and `.docx` dispatch to their
extractors, any other extension raises
`ValueError(f"Unsupported file type: {ext}")`, which the `except` block
re-raises wrapped — before any chunk is produced or the store touched. -/
def processDocument (σ : Type)
    (addDocs : σ → List Doc → ℕ × σ × List StoreEffect)
    (pdfExtract docxExtract : Except String String)
    (docId : String) (filename : String) (documentType : Option String)
    (st : σ) : Except PyErr ProcessResult × σ × List StoreEffect :=
  let ext := lowerString (splitextExt filename)
  if ext = ".pdf" then
    match pdfExtract with
    | .error m => (.error (.exn ("Error processing document: " ++ m)), st, [])
    | .ok text =>
        let r := addDocs st (mkChunkDocs filename docId documentType text)
        (.ok ⟨docId, filename, documentType, r.1⟩, r.2.1, r.2.2)
  else if ext = ".docx" then
    match docxExtract with
    | .error m => (.error (.exn ("Error processing document: " ++ m)), st, [])
    | .ok text =>
        let r := addDocs st (mkChunkDocs filename docId documentType text)
        (.ok ⟨docId, filename, documentType, r.1⟩, r.2.1, r.2.2)
  else
    (.error (.exn ("Error processing document: Unsupported file type: " ++ ext)),
      st, [])

/-! ## Helper lemmas -/

theorem concatAll_nil : concatAll [] = [] := rfl

theorem concatAll_cons (c : List Char) (cs : List (List Char)) :
    concatAll (c :: cs) = c ++ concatAll cs := rfl

theorem concatAll_length (ls : List (List Char)) :
    (concatAll ls).length = (ls.map List.length).sum := by
  induction ls with
  | nil => rfl
  | cons c cs ih => simp [concatAll_cons, ih]

/-- The concatenation of the overlap-stripped chunks recovers the text
past its first `overlap` characters. -/
theorem splitText_concat_drop (cs ov : ℕ) (hov : ov < cs) (text : List Char) :
    concatAll ((splitText cs ov text).map (fun c => c.drop ov)) = text.drop ov := by
  have H : ∀ n (t : List Char), t.length = n →
      concatAll ((splitText cs ov t).map (fun c => c.drop ov)) = t.drop ov := by
    intro n
    induction n using Nat.strong_induction_on with
    | _ n ih =>
      intro t hn
      rw [splitText.eq_def]
      by_cases he : t.isEmpty
      · have ht : t = [] := List.isEmpty_iff.mp he
        subst ht
        simp [concatAll_nil]
      · rw [if_neg he]
        by_cases hc : t.length ≤ cs
        · rw [if_pos hc]
          simp [concatAll_cons, concatAll_nil]
        · rw [if_neg hc, dif_pos hov]
          simp only [List.map_cons, concatAll_cons]
          rw [ih (t.length - (cs - ov)) (by omega) (t.drop (cs - ov)) (by simp)]
          have e1 : List.drop ov (List.take cs t) =
              List.take (cs - ov) (List.drop ov t) := by
            rw [List.take_drop]
            have hcs : ov + (cs - ov) = cs := by omega
            rw [hcs]
          have e2 : List.drop ov (List.drop (cs - ov) t) =
              List.drop (cs - ov) (List.drop ov t) := by
            rw [List.drop_drop, List.drop_drop]
            have : cs - ov + ov = ov + (cs - ov) := by omega
            rw [this]
          rw [e1, e2, List.take_append_drop]
  exact H text.length text rfl

/-- Reassembling the chunks (first chunk whole, later chunks without
their leading overlap) yields the original text. -/
theorem splitText_joinChunks (cs ov : ℕ) (hov : ov < cs) (text : List Char) :
    joinChunks ov (splitText cs ov text) = text := by
  rw [splitText.eq_def]
  by_cases he : text.isEmpty
  · have ht : text = [] := List.isEmpty_iff.mp he
    subst ht
    simp [joinChunks]
  · rw [if_neg he]
    by_cases hc : text.length ≤ cs
    · rw [if_pos hc]
      simp [joinChunks, concatAll_nil]
    · rw [if_neg hc, dif_pos hov]
      show List.take cs text ++
          concatAll ((splitText cs ov (text.drop (cs - ov))).map (fun c => c.drop ov)) =
          text
      rw [splitText_concat_drop cs ov hov, List.drop_drop]
      have : cs - ov + ov = cs := by omega
      rw [this, List.take_append_drop]

/-- The reassembly is never longer than the chunks it came from. -/
theorem joinChunks_length_le (ov : ℕ) (chunks : List (List Char)) :
    (joinChunks ov chunks).length ≤ (chunks.map List.length).sum := by
  cases chunks with
  | nil => simp [joinChunks]
  | cons c rest =>
    show (c ++ concatAll (rest.map (fun x => x.drop ov))).length ≤ _
    rw [List.length_append, concatAll_length, List.map_map]
    have h : ((rest.map (List.length ∘ fun x => List.drop ov x)).sum) ≤
        (rest.map List.length).sum := by
      apply List.sum_le_sum
      intro i _
      simp only [Function.comp_apply, List.length_drop]
      omega
    simp only [List.map_cons, List.sum_cons]
    omega

/-! ## Claim theorems -/

/-- Claim C1, counterexample: the score conversion of
`FAISSVectorStore.search` / `ChromaVectorStore.search` is not monotonic
across its branch boundary.  At the raw distances 1 and 2 (with
0 ≤ 1 ≤ 2), distance 1 converts to similarity 0 while the larger
distance 2 converts to the larger similarity 1/2, refuting the claim
that lower distance never yields lower similarity. -/
theorem score_conversion_not_monotonic_c1 :
    (0 : ℚ) ≤ 1 ∧ (1 : ℚ) ≤ 2 ∧ relevanceScore 1 < relevanceScore 2 := by
  refine ⟨by norm_num, by norm_num, ?_⟩
  norm_num [relevanceScore]

/-- Claim C1, amended: the conversion is monotonic within each branch —
for distances both in [0,1] and for distances both above 1 — and every
converted similarity of a nonnegative distance lies in [0,1]; but
monotonicity does not hold across the branch boundary. -/
theorem score_conversion_branchwise_c1 :
    (∀ d1 d2 : ℚ, 0 ≤ d1 → d1 ≤ d2 → d2 ≤ 1 →
        relevanceScore d2 ≤ relevanceScore d1) ∧
    (∀ d1 d2 : ℚ, 1 < d1 → d1 ≤ d2 →
        relevanceScore d2 ≤ relevanceScore d1) ∧
    (∀ d : ℚ, 0 ≤ d → 0 ≤ relevanceScore d ∧ relevanceScore d ≤ 1) := by
  refine ⟨?_, ?_, ?_⟩
  · intro d1 d2 h0 h12 h21
    rw [relevanceScore, relevanceScore, if_pos (le_trans h12 h21), if_pos h21]
    linarith
  · intro d1 d2 h1 h12
    have h2 : ¬ d2 ≤ 1 := by linarith
    have h1n : ¬ d1 ≤ 1 := by linarith
    rw [relevanceScore, relevanceScore, if_neg h2,
      if_pos (show (0:ℚ) < d2 by linarith), if_neg h1n,
      if_pos (show (0:ℚ) < d1 by linarith)]
    apply one_div_le_one_div_of_le <;> linarith
  · intro d h0
    rw [relevanceScore]
    by_cases hd : d ≤ 1
    · rw [if_pos hd]
      constructor <;> linarith
    · rw [if_neg hd, if_pos (by linarith)]
      constructor
      · positivity
      · rw [div_le_one (by linarith)]
        linarith

/-- Claim C1 witness: the amended theorem applied at concrete distances
1/4 ≤ 1/2 (first branch), 2 ≤ 4 (second branch) and 3 (range). -/
theorem score_conversion_branchwise_c1_witness :
    relevanceScore (1/2) ≤ relevanceScore (1/4) ∧
    relevanceScore 4 ≤ relevanceScore 2 ∧
    (0 ≤ relevanceScore 3 ∧ relevanceScore 3 ≤ 1) :=
  ⟨score_conversion_branchwise_c1.1 (1/4) (1/2) (by norm_num) (by norm_num) (by norm_num),
   score_conversion_branchwise_c1.2.1 2 4 (by norm_num) (by norm_num),
   score_conversion_branchwise_c1.2.2 3 (by norm_num)⟩

/-- Claim C4 (the Chunker is modelled from the spec, §4.2, since the
splitter implementation is an external library): for overlap strictly
between 0 and the chunk size, the total length of the produced chunks is
at least the length of the input, and concatenating the non-overlapping
portions of consecutive chunks (first chunk whole, later chunks without
their leading `overlap` characters) reconstructs the input exactly. -/
theorem split_preserves_content_c4 (chunkSize overlap : ℕ)
    (hpos : 0 < overlap) (hlt : overlap < chunkSize) (text : List Char) :
    text.length ≤ ((splitText chunkSize overlap text).map List.length).sum ∧
    joinChunks overlap (splitText chunkSize overlap text) = text := by
  have hrec := splitText_joinChunks chunkSize overlap hlt text
  refine ⟨?_, hrec⟩
  calc text.length = (joinChunks overlap (splitText chunkSize overlap text)).length := by
        rw [hrec]
    _ ≤ _ := joinChunks_length_le overlap _

/-- Claim C4 witness: chunk size 5, overlap 2 on an 11-character text. -/
theorem split_preserves_content_c4_witness :
    (0 < 2 ∧ 2 < 5) ∧
    "abcdefghijk".toList.length ≤
      ((splitText 5 2 "abcdefghijk".toList).map List.length).sum ∧
    joinChunks 2 (splitText 5 2 "abcdefghijk".toList) = "abcdefghijk".toList :=
  ⟨⟨by decide, by decide⟩,
   split_preserves_content_c4 5 2 (by decide) (by decide) "abcdefghijk".toList⟩

/-- Claim C5: adding an empty list of documents returns count 0, leaves
both the in-memory and the persisted state of the store untouched, and
performs no persistence operation — on the FAISS backend and on the
Chroma backend alike. -/
theorem add_documents_empty_noop_c5 (embed : String → List ℚ)
    (fst : FAISSStoreState) (cst : ChromaStoreState) :
    faissAddDocuments embed fst [] = (0, fst, []) ∧
    chromaAddDocuments embed cst [] = (0, cst, []) :=
  ⟨rfl, rfl⟩

/-- Claim C9, counterexample: `FAISSVectorStore.delete` on a concrete
store and a concrete id list returns `False` normally — it neither raises
an `UnsupportedOperation` error nor any other exception — and leaves the
store exactly as it was, refuting the claim that every call fails with
`UnsupportedOperation`. -/
theorem faiss_delete_returns_false_c9_cex :
    faissDelete ⟨[sentinelEntry], [sentinelEntry]⟩ ["doc-1"] =
      (.ok false, ⟨[sentinelEntry], [sentinelEntry]⟩) := rfl

/-- Claim C9, amended: on the FAISS backend, which does not support
deletion, every call to delete returns the value `False` without raising
any error and without modifying the store; the unsupportedness is
signalled only by that return value, not by an `UnsupportedOperation`
failure. -/
theorem faiss_delete_silent_false_c9 (st : FAISSStoreState)
    (documentIds : List String) :
    faissDelete st documentIds = (.ok false, st) := rfl

/-- Claim C2: for every index state, every embedding outcome for the
query, every query and every k, no result returned by
`VectorStoreService.search_similar` carries the sentinel marker
`source = "initialization"` in its metadata. -/
theorem search_never_returns_sentinel_c2
    (embedResult : Except String (List ℚ)) (entries : List IndexEntry)
    (query : String) (k : ℕ) (r : SearchResult)
    (hr : r ∈ searchSimilarSvc embedResult entries query k) :
    dictGet r.metadata "source" ≠ some "initialization" := by
  unfold searchSimilarSvc at hr
  by_cases hb : isBlank query
  · rw [if_pos hb] at hr
    exact absurd hr (List.not_mem_nil r)
  · rw [if_neg hb] at hr
    cases embedResult with
    | error e => exact absurd hr (List.not_mem_nil r)
    | ok qv =>
      simp only [List.mem_map] at hr
      obtain ⟨p, hp, hfp⟩ := hr
      have hpred := List.of_mem_filter hp
      simp only [Bool.not_eq_true', beq_eq_false_iff_ne, ne_eq] at hpred
      subst hfp
      exact hpred

/-- Claim C2 witness: a concrete one-entry index where the eligible
entry is returned and indeed carries no sentinel marker. -/
theorem search_never_returns_sentinel_c2_witness :
    dictGet eligibleResult.metadata "source" ≠ some "initialization" :=
  search_never_returns_sentinel_c2 (.ok [10]) [eligibleEntry]
    "diabetes symptoms" 3 eligibleResult
    (by simp +decide [searchSimilarSvc, similaritySearchWithScore, sortByScore,
      insertByScore, sqDist, eligibleEntry, eligibleResult, dictGet])

/-- Claim C10: the sentinel is filtered only after the top-k retrieval,
so a search with limit k can return fewer than k results although the
index holds at least k eligible entries — on the concrete state holding
the sentinel (nearest to the query) and one eligible entry, a search with
k = 1 returns no result at all. -/
theorem search_can_return_fewer_than_k_c10 :
    1 ≤ (c10State.filter
        (fun e => !(dictGet e.doc.metadata "source" == some "initialization"))).length ∧
    (searchSimilarSvc (.ok [0]) c10State "diabetes symptoms" 1).length < 1 := by
  refine ⟨by decide, ?_⟩
  norm_num [searchSimilarSvc, similaritySearchWithScore, sortByScore, insertByScore,
    sqDist, c10State, sentinelEntry, sentinelEntryWith, eligibleEntry, dictGet,
    show isBlank "diabetes symptoms" = false from by decide]

/-- Claim C3: evaluating `ChatService.process_question` on the scenario
of the claim — index holding only the sentinel, a question, no
conversation id — the call does not succeed: the retrieval call
`self.vector_store_service.search(question, top_k=3)` hits a missing
attribute (the service defines `search_similar`, not `search`), and the
`except` block re-raises it wrapped.  The claimed envelope
(`sources = null`, `has_context = false`, without-context confidence) is
never produced. -/
theorem process_question_attribute_error_c3 :
    processQuestion (fun _ _ => "I do not know.") (.ok [0]) [sentinelEntry]
        "What are the symptoms of diabetes?" none "3f2b8c1a-fresh-conversation-id" =
      .error (.attributeErrorWrapped "VectorStoreService" "search") := rfl

/-- Claim C6: for every uploaded file whose computed extension
(`os.path.splitext(filename)[1].lower()`) is neither `.pdf` nor `.docx`,
`process_document` fails with the unsupported-file-type error, the
injected vector store is left unchanged, and no persistence operation is
performed (zero chunks written). -/
theorem process_document_unsupported_format_c6 (σ : Type)
    (addDocs : σ → List Doc → ℕ × σ × List StoreEffect)
    (pdfExtract docxExtract : Except String String)
    (docId filename : String) (documentType : Option String) (st : σ)
    (h1 : lowerString (splitextExt filename) ≠ ".pdf")
    (h2 : lowerString (splitextExt filename) ≠ ".docx") :
    processDocument σ addDocs pdfExtract docxExtract docId filename documentType st =
      (.error (.exn ("Error processing document: Unsupported file type: " ++
          lowerString (splitextExt filename))), st, []) := by
  simp only [processDocument]
  rw [if_neg h1, if_neg h2]

/-- Claim C6 witness: a `.exe` upload against a concrete store. -/
theorem process_document_unsupported_format_c6_witness :
    processDocument (List Doc)
        (fun st ds => (ds.length, st ++ ds, [StoreEffect.saveLocal]))
        (.ok "ignored") (.ok "ignored") "doc-1" "malware.exe" none [] =
      (.error (.exn "Error processing document: Unsupported file type: .exe"),
        [], []) := by
  rw [process_document_unsupported_format_c6 (List Doc)
    (fun st ds => (ds.length, st ++ ds, [StoreEffect.saveLocal]))
    (.ok "ignored") (.ok "ignored") "doc-1" "malware.exe" none []
    (by decide) (by decide)]
  rfl

/-- Claim C7, counterexample: a persisted index of stored dimension 1536
and a requested dimension of 768 — `_initialize_vector_store` does not
fail with `DimensionMismatch`: the load succeeds, the stored index is
used as-is, and no dimension comparison happens anywhere in the code. -/
theorem initialize_no_dimension_check_c7_cex :
    initializeVectorStore 768 (List.replicate 768 0) (some disk1536) true =
      (.ok (disk1536.entries, 1536), some disk1536) := rfl

/-- Claim C7, amended: when `initialize` finds a persisted index whose
stored dimension differs from the requested one and the index
deserializes successfully, the call succeeds with the stored index
unchanged — no dimension check is performed and the persisted store is
not modified (no `DimensionMismatch` error exists on this path). -/
theorem initialize_loads_regardless_of_dimension_c7 (requestedDim : ℕ)
    (sentinelVec : List ℚ) (d : DiskIndex) (hne : requestedDim ≠ d.dimension) :
    initializeVectorStore requestedDim sentinelVec (some d) true =
      (.ok (d.entries, d.dimension), some d) := rfl

/-- Claim C7 witness: stored dimension 1536, requested 768. -/
theorem initialize_loads_regardless_of_dimension_c7_witness :
    (768 ≠ disk1536.dimension) ∧
    initializeVectorStore 768 (List.replicate 768 0) (some disk1536) true =
      (.ok (disk1536.entries, disk1536.dimension), some disk1536) :=
  ⟨by decide,
   initialize_loads_regardless_of_dimension_c7 768 (List.replicate 768 0)
     disk1536 (by decide)⟩

/-- Claim C8, counterexample: an upstream embedding failure during
`add_document` yields the plain return value `False` — equal to the
output of an ordinary blank-content call — and during `search_similar`
yields the empty list — equal to the output of an ordinary successful
search over an empty index.  The failures are converted to exactly the
default success values the claim says they are never converted to. -/
theorem errors_masked_as_defaults_c8_cex :
    addDocumentSvc (.error "EmbeddingServiceError") [] [] "New clinic hours." [] =
      (false, [], []) ∧
    addDocumentSvc (.error "EmbeddingServiceError") [] [] "New clinic hours." [] =
      addDocumentSvc (.ok [1]) [] [] " " [] ∧
    searchSimilarSvc (.error "EmbeddingServiceError") c10State "diabetes symptoms" 3 = [] ∧
    searchSimilarSvc (.error "EmbeddingServiceError") c10State "diabetes symptoms" 3 =
      searchSimilarSvc (.ok [10]) [] "diabetes symptoms" 3 := by
  decide

/-- Claim C8, amended: every internal failure during an insert or a
search is caught by the surrounding `except` block and converted to a
default value — `False` for `add_document`, the empty list for
`search_similar` — with the store left unchanged; no distinguishable
error condition reaches the caller. -/
theorem errors_caught_return_defaults_c8 (e : String)
    (entries disk st : List IndexEntry) (content : String)
    (metadata : List (String × String)) (query : String) (k : ℕ) :
    addDocumentSvc (.error e) entries disk content metadata = (false, entries, disk) ∧
    searchSimilarSvc (.error e) st query k = [] := by
  constructor
  · unfold addDocumentSvc
    split
    · rfl
    · rfl
  · unfold searchSimilarSvc
    split
    · rfl
    · rfl

end CareSync
